import Mathlib

/-!
Shallow embedding of the JSONTP file server (src/file-server/src/main.rs):
envelope data types, the request validator, and the per-connection handler,
with theorems checking the specification's claims against them.
-/

namespace Jsontp

/-- JSON values as in serde_json's `Value` type (numbers approximated by
integers; no claim touches numeric values). -/
inductive JValue where
  | null : JValue
  | bool : Bool → JValue
  | num : Int → JValue
  | str : String → JValue
  | arr : List JValue → JValue
  | obj : List (String × JValue) → JValue

/-- `Body` from the source: content, encoding, and the flattened map of
extension fields. -/
structure Body where
  content : String
  encoding : String
  other : List (String × JValue)

/-- `JsontpRequest` from the source. -/
structure JsontpRequest where
  jsontp : String
  type_of_request : String
  method : String
  resource : String
  headers : List (String × JValue)
  body : Body

/-- `Status` from the source. -/
structure Status where
  code : Nat
  formal_message : String
  human_message : String

/-- `JsontpResponse` from the source. -/
structure JsontpResponse where
  jsontp : String
  type_of_response : String
  status : Status
  resource : String
  headers : List (String × JValue)
  body : Body

/-- ASCII lowercasing of a string, modelling Rust's `to_lowercase` on the
header keys involved (all ASCII in the allow-list comparison). -/
def lowerStr (s : String) : String := String.mk (s.data.map Char.toLower)

/-- The first three characters of a string; models the byte slice
`jsontp.get(..3)` compared against `"1.0"` (for ASCII content the byte
slice and the character slice agree). -/
def firstThree (s : String) : String := String.mk (s.data.take 3)

/-- Equality with the literal `Value::Bool(true)`, as in the source's
comparison `!= &Value::Bool(true)`. -/
def JValue.isTrue : JValue → Bool
  | .bool true => true
  | _ => false

/-- Exact-key lookup in a header map, modelling `HashMap::get`. -/
def getHeader : List (String × JValue) → String → Option JValue
  | [], _ => none
  | (k, v) :: rest, key => if k = key then some v else getHeader rest key

/-- The header allow-list from `JsontpRequest::validate`. -/
def allowedHeaderKeys : List String :=
  ["content-type", "accept", "accept-encoding", "accept-language",
   "authorization", "cookies", "if-modified-since", "if-unmodified-since",
   "expect"]

/-- A header key is allowed when its lowercasing is in the allow-list. -/
def allowedHeader (k : String) : Bool := allowedHeaderKeys.contains (lowerStr k)

/-- The encodings accepted by `validate`. -/
def allowedEncoding (e : String) : Bool :=
  ["gzip", "deflate", "br", "identity"].contains e

/-- The methods accepted by `validate`. -/
def allowedMethod (m : String) : Bool :=
  ["GET", "POST", "PUT", "DELETE", "OPTIONS"].contains m

/-- The `bad_headers` loop of `validate`: some header key is outside the
allow-list. -/
def anyBad (hs : List (String × JValue)) : Bool :=
  hs.any (fun kv => !(allowedHeader kv.1))

/-- `JsontpRequest::validate` from the source, check for check. -/
def JsontpRequest.validate (r : JsontpRequest) : Except (String × Nat) Unit :=
  if firstThree r.jsontp ≠ "1.0" then .error ("HTTP Version Not Supported", 505)
  else if r.type_of_request ≠ "request" then .error ("Bad Request", 400)
  else if r.resource = "" then .error ("Bad Request", 400)
  else if r.body.content = "" then .error ("Bad Request", 400)
  else if r.body.encoding = "" then .error ("Bad Request", 400)
  else if r.method = "" then .error ("Bad Request", 400)
  else if allowedEncoding r.body.encoding = false then .error ("Bad Request", 400)
  else if allowedMethod r.method = false then .error ("Bad Request", 400)
  else if anyBad r.headers &&
      !((getHeader r.headers "ignore-invalid-headers").getD
          (JValue.bool false)).isTrue then
    .error ("Bad Request hea", 400)
  else .ok ()

/-- The per-connection handler from `main`: the decoded request (or `none`
on a decode failure) and the storage collaborator (`std::fs::read_to_string`,
all read failures collapsed to `none`) determine the single response
envelope written back. -/
def handleConnection (d : Option JsontpRequest)
    (fs : String → Option String) : JsontpResponse :=
  match d with
  | some request =>
    match request.validate with
    | .ok _ =>
      let file := fs request.resource
      { jsontp := "1.0"
        type_of_response := "response"
        status :=
          match file with
          | some _ =>
            { code := 200, formal_message := "OK",
              human_message := "Request was successful" }
          | none =>
            { code := 404, formal_message := "Not Found",
              human_message := "Resource not found" }
        resource := request.resource
        headers := [("date", JValue.str ""), ("language", JValue.str "en-GB")]
        body :=
          { content := match file with | some c => c | none => ""
            encoding := "identity"
            other := [] } }
    | .error (message, code) =>
      { jsontp := "1.0"
        type_of_response := "response"
        status :=
          { code := code, formal_message := message, human_message := message }
        resource := request.resource
        headers := request.headers
        body := request.body }
  | none =>
    { jsontp := "1.0"
      type_of_response := "response"
      status :=
        { code := 400, formal_message := "Bad Request",
          human_message := "Request was not a valid JSONTP request" }
      resource := ""
      headers := []
      body := { content := "", encoding := "", other := [] } }

/-- A fully valid concrete request used to instantiate theorems. -/
def reqBase : JsontpRequest :=
  { jsontp := "1.0", type_of_request := "request", method := "GET",
    resource := "file.txt", headers := [],
    body := { content := "hello", encoding := "identity", other := [] } }

/-- A concrete one-entry storage collaborator. -/
def fsOne : String → Option String :=
  fun s => if s = "file.txt" then some "contents" else none

lemma validate_ne_version_error (r : JsontpRequest)
    (h : firstThree r.jsontp = "1.0") :
    r.validate ≠ .error ("HTTP Version Not Supported", 505) := by
  unfold JsontpRequest.validate
  rw [if_neg (by simp [h])]
  split_ifs <;> simp

/-- C1: per handled connection the handler is a total function producing a
single response envelope, and for every decode outcome and every storage
state that envelope has `jsontp = "1.0"` and `type = "response"`. -/
theorem handleConnection_envelope_wellformed (d : Option JsontpRequest)
    (fs : String → Option String) :
    (handleConnection d fs).jsontp = "1.0" ∧
    (handleConnection d fs).type_of_response = "response" := by
  cases d with
  | none => exact ⟨rfl, rfl⟩
  | some r =>
    cases hv : r.validate with
    | ok u =>
      cases hf : fs r.resource <;> simp [handleConnection, hv, hf]
    | error e =>
      obtain ⟨m, c⟩ := e
      simp [handleConnection, hv]

/-- C2: validation yields the error ("HTTP Version Not Supported", 505)
exactly when the first three characters of `jsontp` differ from "1.0";
in particular any `jsontp` of fewer than three characters fails with 505
(and one merely starting with "1.0" passes this check). -/
theorem validate_version_rule (r : JsontpRequest) :
    (r.validate = .error ("HTTP Version Not Supported", 505) ↔
      firstThree r.jsontp ≠ "1.0") ∧
    (r.jsontp.length < 3 →
      r.validate = .error ("HTTP Version Not Supported", 505)) := by
  have hne_of_short : r.jsontp.length < 3 → firstThree r.jsontp ≠ "1.0" := by
    intro hlen hcon
    have hd : r.jsontp.data.take 3 = ['1', '.', '0'] := congrArg String.data hcon
    have hlen2 := congrArg List.length hd
    simp [List.length_take] at hlen2
    omega
  constructor
  · constructor
    · intro he
      intro hcon
      exact validate_ne_version_error r hcon he
    · intro hne
      unfold JsontpRequest.validate
      rw [if_pos hne]
  · intro hlen
    unfold JsontpRequest.validate
    rw [if_pos (hne_of_short hlen)]

/-- Witness for C2 at the concrete two-character version string "1.". -/
theorem validate_version_rule_witness :
    ({ reqBase with jsontp := "1." } : JsontpRequest).validate =
      .error ("HTTP Version Not Supported", 505) :=
  (validate_version_rule _).2 (by decide)

/-- C7: on a decode failure the response is 400 "Bad Request" with the
human message naming an invalid JSONTP request, empty resource, empty
headers, and an empty body with empty encoding. -/
theorem decode_failure_response (fs : String → Option String) :
    (handleConnection none fs).status.code = 400 ∧
    (handleConnection none fs).status.formal_message = "Bad Request" ∧
    (handleConnection none fs).status.human_message =
      "Request was not a valid JSONTP request" ∧
    (handleConnection none fs).resource = "" ∧
    (handleConnection none fs).headers = [] ∧
    (handleConnection none fs).body.content = "" ∧
    (handleConnection none fs).body.encoding = "" :=
  ⟨rfl, rfl, rfl, rfl, rfl, rfl, rfl⟩

/-- Conjunction of the first eight checks of `validate` (version through
method allow-list), the state in which the header rule is reached. -/
def passesFirstEight (r : JsontpRequest) : Bool :=
  (firstThree r.jsontp == "1.0") && (r.type_of_request == "request") &&
  !(r.resource == "") && !(r.body.content == "") && !(r.body.encoding == "") &&
  !(r.method == "") && allowedEncoding r.body.encoding && allowedMethod r.method

lemma validate_of_first_eight (r : JsontpRequest)
    (h : passesFirstEight r = true) :
    r.validate =
      if anyBad r.headers &&
          !((getHeader r.headers "ignore-invalid-headers").getD
              (JValue.bool false)).isTrue then
        .error ("Bad Request hea", 400)
      else .ok () := by
  simp only [passesFirstEight, Bool.and_eq_true, beq_iff_eq, Bool.not_eq_true',
    beq_eq_false_iff_ne, ne_eq] at h
  obtain ⟨⟨⟨⟨⟨⟨⟨h1, h2⟩, h3⟩, h4⟩, h5⟩, h6⟩, h7⟩, h8⟩ := h
  unfold JsontpRequest.validate
  rw [if_neg (by simp [h1]), if_neg (by simp [h2]), if_neg h3, if_neg h4,
    if_neg h5, if_neg h6, if_neg (by simp [h7]), if_neg (by simp [h8])]

lemma getD_isTrue_iff (hs : List (String × JValue)) (k : String) :
    ((getHeader hs k).getD (JValue.bool false)).isTrue = true ↔
      getHeader hs k = some (JValue.bool true) := by
  cases hv : getHeader hs k with
  | none => simp [JValue.isTrue]
  | some v =>
    cases v with
    | bool b => cases b <;> simp [JValue.isTrue]
    | null => simp [JValue.isTrue]
    | num n => simp [JValue.isTrue]
    | str s => simp [JValue.isTrue]
    | arr xs => simp [JValue.isTrue]
    | obj kvs => simp [JValue.isTrue]

instance decGetHeaderBoolTrue (hs : List (String × JValue)) (k : String) :
    Decidable (getHeader hs k = some (JValue.bool true)) :=
  decidable_of_iff _ (getD_isTrue_iff hs k)

/-- C3: once the first eight checks pass, a header key outside the
allow-list without an `ignore-invalid-headers: true` entry fails validation
with code 400, and adding `ignore-invalid-headers: true` to the otherwise
identical request makes the header rule pass. -/
theorem validate_header_allowlist (r : JsontpRequest)
    (h : passesFirstEight r = true) :
    (anyBad r.headers = true →
      getHeader r.headers "ignore-invalid-headers" ≠ some (JValue.bool true) →
      r.validate = .error ("Bad Request hea", 400)) ∧
    ({ r with headers :=
        ("ignore-invalid-headers", JValue.bool true) :: r.headers }
        : JsontpRequest).validate = .ok () := by
  constructor
  · intro hbad hover
    rw [validate_of_first_eight r h]
    have hfalse :
        ((getHeader r.headers "ignore-invalid-headers").getD
          (JValue.bool false)).isTrue = false := by
      rw [Bool.eq_false_iff]
      intro hcon
      exact hover (((getD_isTrue_iff r.headers "ignore-invalid-headers").1 hcon))
    rw [hbad, hfalse]
    rfl
  · have h8 : passesFirstEight
        { r with headers :=
          ("ignore-invalid-headers", JValue.bool true) :: r.headers } = true := h
    rw [validate_of_first_eight _ h8]
    simp [getHeader, JValue.isTrue]

/-- Witness for C3 at a concrete request carrying the disallowed header
key "x-custom". -/
theorem validate_header_allowlist_witness :
    ({ reqBase with headers := [("x-custom", JValue.str "1")] }
        : JsontpRequest).validate = .error ("Bad Request hea", 400) ∧
    ({ reqBase with headers :=
        ("ignore-invalid-headers", JValue.bool true)
          :: [("x-custom", JValue.str "1")] } : JsontpRequest).validate
      = .ok () :=
  ⟨(validate_header_allowlist
      { reqBase with headers := [("x-custom", JValue.str "1")] }
      (by decide)).1 (by decide) (by simp [reqBase, getHeader]),
   (validate_header_allowlist
      { reqBase with headers := [("x-custom", JValue.str "1")] }
      (by decide)).2⟩

/-- C8: when validation fails, the response carries the validator's code
and formal message, a human message equal to the formal message, and echoes
the request's resource, headers, and body unchanged. -/
theorem validation_failure_echo (r : JsontpRequest)
    (fs : String → Option String) (m : String) (c : Nat)
    (hv : r.validate = .error (m, c)) :
    handleConnection (some r) fs =
      { jsontp := "1.0", type_of_response := "response",
        status := { code := c, formal_message := m, human_message := m },
        resource := r.resource, headers := r.headers, body := r.body } := by
  simp [handleConnection, hv]

/-- Witness for C8 at a concrete request whose `type` field is "reply". -/
theorem validation_failure_echo_witness :
    handleConnection
        (some { reqBase with type_of_request := "reply" }) fsOne =
      { jsontp := "1.0", type_of_response := "response",
        status := { code := 400, formal_message := "Bad Request",
                    human_message := "Bad Request" },
        resource := reqBase.resource, headers := reqBase.headers,
        body := reqBase.body } :=
  validation_failure_echo { reqBase with type_of_request := "reply" }
    fsOne "Bad Request" 400 (by rfl)

/-- C9: the handler is a deterministic function of the decoded input and
the storage state — equal inputs and equal storage yield structurally
identical response envelopes. -/
theorem handleConnection_deterministic (d d' : Option JsontpRequest)
    (fs fs' : String → Option String) (hd : d = d') (hf : fs = fs') :
    handleConnection d fs = handleConnection d' fs' := by
  rw [hd, hf]

/-- Witness for C9 at a concrete valid request and storage state. -/
theorem handleConnection_deterministic_witness :
    handleConnection (some reqBase) fsOne = handleConnection (some reqBase) fsOne :=
  handleConnection_deterministic (some reqBase) (some reqBase) fsOne fsOne
    rfl rfl

/-- C5: for a validated request whose resource the storage collaborator
resolves, the response is 200 "OK" / "Request was successful", echoes the
resource, carries a `date` header mapped to the empty string and a
`language` header mapped to "en-GB", and its body holds the stored content
with encoding "identity". -/
theorem resolver_hit_response (r : JsontpRequest)
    (fs : String → Option String) (c : String)
    (hv : r.validate = .ok ()) (hf : fs r.resource = some c) :
    (handleConnection (some r) fs).status.code = 200 ∧
    (handleConnection (some r) fs).status.formal_message = "OK" ∧
    (handleConnection (some r) fs).status.human_message =
      "Request was successful" ∧
    (handleConnection (some r) fs).resource = r.resource ∧
    getHeader (handleConnection (some r) fs).headers "date" =
      some (JValue.str "") ∧
    getHeader (handleConnection (some r) fs).headers "language" =
      some (JValue.str "en-GB") ∧
    (handleConnection (some r) fs).body.content = c ∧
    (handleConnection (some r) fs).body.encoding = "identity" := by
  simp [handleConnection, hv, hf, getHeader]

/-- Witness for C5 at the concrete request and one-entry storage. -/
theorem resolver_hit_response_witness :
    (handleConnection (some reqBase) fsOne).status.code = 200 ∧
    (handleConnection (some reqBase) fsOne).body.content = "contents" := by
  have h := resolver_hit_response reqBase fsOne "contents" (by rfl) (by rfl)
  exact ⟨h.1, h.2.2.2.2.2.2.1⟩

/-- C6: for a validated request whose resource the storage collaborator
cannot read (all read-failure causes collapsed to one miss outcome), the
response is 404 "Not Found" / "Resource not found" with empty body content,
encoding "identity", the request's resource echoed, and the same
date/language headers as the hit case. -/
theorem resolver_miss_response (r : JsontpRequest)
    (fs : String → Option String)
    (hv : r.validate = .ok ()) (hf : fs r.resource = none) :
    (handleConnection (some r) fs).status.code = 404 ∧
    (handleConnection (some r) fs).status.formal_message = "Not Found" ∧
    (handleConnection (some r) fs).status.human_message =
      "Resource not found" ∧
    (handleConnection (some r) fs).resource = r.resource ∧
    getHeader (handleConnection (some r) fs).headers "date" =
      some (JValue.str "") ∧
    getHeader (handleConnection (some r) fs).headers "language" =
      some (JValue.str "en-GB") ∧
    (handleConnection (some r) fs).body.content = "" ∧
    (handleConnection (some r) fs).body.encoding = "identity" := by
  simp [handleConnection, hv, hf, getHeader]

/-- Witness for C6 at a concrete request naming a missing resource. -/
theorem resolver_miss_response_witness :
    (handleConnection (some { reqBase with resource := "missing.txt" })
        fsOne).status.code = 404 ∧
    (handleConnection (some { reqBase with resource := "missing.txt" })
        fsOne).body.content = "" := by
  have h := resolver_miss_response { reqBase with resource := "missing.txt" }
    fsOne (by rfl) (by rfl)
  exact ⟨h.1, h.2.2.2.2.2.2.1⟩

/-- C10: the header-rule override is recognised only through the exact
lowercase key "ignore-invalid-headers" mapped to the JSON boolean `true`:
that key is itself outside the allow-list under any capitalisation, and
once the first eight checks pass and some header key is disallowed,
validation succeeds exactly when the headers map holds that exact key with
the boolean `true` — so a differently-capitalised key or a non-boolean
value leaves the request rejected. -/
theorem override_exact_lowercase_bool_only :
    (∀ k : String, lowerStr k = "ignore-invalid-headers" →
      allowedHeader k = false) ∧
    (∀ r : JsontpRequest, passesFirstEight r = true →
      anyBad r.headers = true →
      (r.validate = .ok () ↔
        getHeader r.headers "ignore-invalid-headers" =
          some (JValue.bool true))) := by
  constructor
  · intro k hk
    unfold allowedHeader
    rw [hk]
    rfl
  · intro r h hbad
    rw [validate_of_first_eight r h, hbad]
    rw [← getD_isTrue_iff r.headers "ignore-invalid-headers"]
    cases hcase : ((getHeader r.headers "ignore-invalid-headers").getD
        (JValue.bool false)).isTrue <;> simp

/-- Witness for C10: the capitalised key "Ignore-Invalid-Headers" with
value `true` still leaves the request rejected, since the exact-key lookup
misses it. -/
theorem override_exact_lowercase_bool_only_witness :
    allowedHeader "Ignore-Invalid-Headers" = false ∧
    (({ reqBase with headers :=
          [("Ignore-Invalid-Headers", JValue.bool true)] }
        : JsontpRequest).validate = .ok () ↔
      getHeader [("Ignore-Invalid-Headers", JValue.bool true)]
          "ignore-invalid-headers" = some (JValue.bool true)) :=
  ⟨override_exact_lowercase_bool_only.1 "Ignore-Invalid-Headers" (by rfl),
   override_exact_lowercase_bool_only.2
     { reqBase with headers := [("Ignore-Invalid-Headers", JValue.bool true)] }
     (by decide) (by rfl)⟩

/-- The specification's §4.1 checklist transcribed in its stated order,
short-circuiting on the first failing check, with the stated failure
outcomes; compared against the source's `validate` for the check-order
claim. -/
def validateSpecOrder (r : JsontpRequest) : Except (String × Nat) Unit :=
  if firstThree r.jsontp ≠ "1.0" then
    .error ("HTTP Version Not Supported", 505)
  else if r.type_of_request ≠ "request" then .error ("Bad Request", 400)
  else if r.resource = "" then .error ("Bad Request", 400)
  else if r.body.content = "" then .error ("Bad Request", 400)
  else if r.body.encoding = "" then .error ("Bad Request", 400)
  else if r.method = "" then .error ("Bad Request", 400)
  else if r.body.encoding ∉ (["gzip", "deflate", "br", "identity"] :
      List String) then
    .error ("Bad Request", 400)
  else if r.method ∉ (["GET", "POST", "PUT", "DELETE", "OPTIONS"] :
      List String) then
    .error ("Bad Request", 400)
  else if (¬ ∀ kv ∈ r.headers, lowerStr kv.1 ∈ allowedHeaderKeys) ∧
      getHeader r.headers "ignore-invalid-headers" ≠
        some (JValue.bool true) then
    .error ("Bad Request hea", 400)
  else .ok ()

lemma allowedEncoding_false_iff (e : String) :
    allowedEncoding e = false ↔
      e ∉ (["gzip", "deflate", "br", "identity"] : List String) := by
  simp [allowedEncoding]

lemma allowedMethod_false_iff (m : String) :
    allowedMethod m = false ↔
      m ∉ (["GET", "POST", "PUT", "DELETE", "OPTIONS"] : List String) := by
  simp [allowedMethod]

lemma anyBad_iff (hs : List (String × JValue)) :
    anyBad hs = true ↔ ¬ ∀ kv ∈ hs, lowerStr kv.1 ∈ allowedHeaderKeys := by
  simp [anyBad, allowedHeader, List.any_eq_true]

lemma overrideCond_iff (hs : List (String × JValue)) :
    (anyBad hs &&
        !((getHeader hs "ignore-invalid-headers").getD
            (JValue.bool false)).isTrue) = true ↔
      ((¬ ∀ kv ∈ hs, lowerStr kv.1 ∈ allowedHeaderKeys) ∧
        getHeader hs "ignore-invalid-headers" ≠ some (JValue.bool true)) := by
  rw [Bool.and_eq_true, Bool.not_eq_true', anyBad_iff]
  have h := getD_isTrue_iff hs "ignore-invalid-headers"
  constructor
  · rintro ⟨ha, hb⟩
    refine ⟨ha, fun hc => ?_⟩
    rw [← h] at hc
    rw [hb] at hc
    cases hc
  · rintro ⟨ha, hb⟩
    refine ⟨ha, ?_⟩
    cases hx : ((getHeader hs "ignore-invalid-headers").getD
        (JValue.bool false)).isTrue
    · rfl
    · exact absurd (h.1 hx) hb

/-- C4: the source validator applies its nine checks in the specified
order, returning the error of the first failing check; the version
mismatch is the only 505 failure and every other failure carries 400, so
a request with both a bad version and an unknown method yields 505. -/
theorem validate_check_order (r : JsontpRequest) :
    r.validate = validateSpecOrder r ∧
    (∀ m : String, ∀ c : Nat, r.validate = .error (m, c) →
      (m = "HTTP Version Not Supported" ∧ c = 505) ∨ c = 400) ∧
    (firstThree r.jsontp ≠ "1.0" →
      r.validate = .error ("HTTP Version Not Supported", 505)) := by
  refine ⟨?_, ?_, ?_⟩
  · unfold JsontpRequest.validate validateSpecOrder
    apply if_congr Iff.rfl rfl
    apply if_congr Iff.rfl rfl
    apply if_congr Iff.rfl rfl
    apply if_congr Iff.rfl rfl
    apply if_congr Iff.rfl rfl
    apply if_congr Iff.rfl rfl
    apply if_congr (allowedEncoding_false_iff _) rfl
    apply if_congr (allowedMethod_false_iff _) rfl
    exact if_congr (overrideCond_iff _) rfl rfl
  · intro m c hmc
    unfold JsontpRequest.validate at hmc
    split_ifs at hmc <;> simp_all
  · intro hne
    unfold JsontpRequest.validate
    rw [if_pos hne]

/-- Witness for C4: a request with both a bad version ("2.0") and an
unknown method ("FLY") fails with 505, not 400. -/
theorem validate_check_order_witness :
    ({ reqBase with jsontp := "2.0", method := "FLY" } : JsontpRequest).validate
      = .error ("HTTP Version Not Supported", 505) :=
  (validate_check_order
    { reqBase with jsontp := "2.0", method := "FLY" }).2.2 (by decide)

end Jsontp
